import Mathlib

/-!
Verification of the icon-conversion script `tools/convert-icons.py`.

The script is modelled as a pure function over an abstract environment that
records whether the cairosvg binding package is installed, whether the native
cairo library is available, the directory containing the script, the current
working directory, the filesystem entries, and whether the rasterizer succeeds
on a given source and size.  Running the script yields a trace of observable
events (lines printed, existence checks, rasterizer invocations, file writes)
together with the process exit code.  A second model describes the effect of a
run on a filesystem mapping file names to declared pixel dimensions.
-/

/-- Kind of entry present at a filesystem path: a regular file (possibly
unreadable) or a directory.  `os.path.exists` returns true for any of them. -/
inductive FsEntry where
  | file (readable : Bool)
  | dir
deriving DecidableEq

/-- Outcome of the try/except around the cairosvg module load at the top of
the script: success, an OSError (native cairo library missing while loading
the binding), or a ModuleNotFoundError (binding package absent). -/
inductive ImportOutcome where
  | ok
  | osError
  | noModule
deriving DecidableEq

/-- Semantics of the module load: when the binding package is absent, Python
raises ModuleNotFoundError (a subclass of ImportError) without attempting any
native-library load; when the package is present but the native cairo library
cannot be loaded, the package raises OSError while initialising; otherwise the
module loads successfully. -/
def importCairosvg : Bool → Bool → ImportOutcome
  | false, _ => ImportOutcome.noModule
  | true, false => ImportOutcome.osError
  | true, true => ImportOutcome.ok

/-- Observable events of one run of the script. -/
inductive Event where
  | importAttempt
  | printLine (line : String)
  | checkExists (path : String)
  | renderCall (url : String) (writeTo : String) (outputWidth outputHeight : Nat)
  | writeFile (path : String)
deriving DecidableEq

/-- The abstract run-time environment of the script. -/
structure Env where
  bindingInstalled : Bool
  nativeAvailable : Bool
  scriptDir : String
  cwd : String
  entries : String → Option FsEntry
  renderOk : String → Nat → Bool

/-- `os.path.join dir name` for a relative `name`: a separator is inserted
unless the directory part is empty or already ends with one. -/
def joinPath (dir name : String) : String :=
  if dir = "" then name
  else if dir.data.getLast? = some '/' then dir ++ name
  else dir ++ "/" ++ name

/-- The fixed list of target sizes: `sizes = [16, 48, 128, 300]`. -/
def sizes : List Nat := [16, 48, 128, 300]

/-- The output file name for a size: `f"chat-icon-\x7bsize\x7d.png"`. -/
def outFile (size : Nat) : String :=
  "chat-icon-" ++ toString size ++ ".png"

/-- The resolved source path:
`os.path.join(os.path.dirname(__file__), "chat-icon.svg")`. -/
def svg_file (env : Env) : String :=
  joinPath env.scriptDir "chat-icon.svg"

/-- `os.path.exists`: true precisely when some entry is present at the path,
regardless of its kind. -/
def pathExists (env : Env) (p : String) : Bool :=
  (env.entries p).isSome

/-- The diagnostic lines printed when the native cairo library is missing. -/
def cairoErrLines : List String :=
  ["Cairo library 未安裝或找不到 (libcairo / cairo.dll)",
   "Windows → 請安裝 GTK runtime",
   "Linux  → apt install libcairo2",
   "macOS  → brew install cairo"]

/-- The diagnostic line printed when the cairosvg package is missing. -/
def cairosvgInstallLine : String :=
  "需安裝 cairosvg: pip install cairosvg"

/-- The progress line printed after converting one size. -/
def progressLine (out : String) : String :=
  "已轉換: " ++ out

/-- The diagnostic line printed when the source file is absent. -/
def missingFileLine (path : String) : String :=
  "無法取得 " ++ path

/-- The render loop: for each size, call `cairosvg.svg2png` with the source
url, the output file, and output width and height both equal to the size, then
print a progress line.  An unhandled rasterizer failure aborts the remainder
of the loop and terminates the process with exit code 1. -/
def convertLoop (env : Env) (svg : String) : List Nat → List Event × Nat
  | [] => ([], 0)
  | size :: rest =>
      let out := outFile size
      if env.renderOk svg size then
        let r := convertLoop env svg rest
        (Event.renderCall svg out size size ::
           Event.writeFile out ::
           Event.printLine (progressLine out) :: r.1,
         r.2)
      else
        ([Event.renderCall svg out size size], 1)

/-- One run of the whole script: attempt the module load, on failure print the
corresponding diagnostic and exit 1; then check that the source file exists,
on failure print the diagnostic naming the path and exit 1; then run the
render loop over `sizes`. -/
def run (env : Env) : List Event × Nat :=
  match importCairosvg env.bindingInstalled env.nativeAvailable with
  | ImportOutcome.osError =>
      (Event.importAttempt :: cairoErrLines.map Event.printLine, 1)
  | ImportOutcome.noModule =>
      (Event.importAttempt :: [Event.printLine cairosvgInstallLine], 1)
  | ImportOutcome.ok =>
      if pathExists env (svg_file env) then
        (Event.importAttempt :: Event.checkExists (svg_file env) ::
           (convertLoop env (svg_file env) sizes).1,
         (convertLoop env (svg_file env) sizes).2)
      else
        ([Event.importAttempt, Event.checkExists (svg_file env),
          Event.printLine (missingFileLine (svg_file env))], 1)

/-- The events emitted by a fully successful render loop over a size list. -/
def loopEvents (svg : String) : List Nat → List Event
  | [] => []
  | size :: rest =>
      Event.renderCall svg (outFile size) size size ::
      Event.writeFile (outFile size) ::
      Event.printLine (progressLine (outFile size)) ::
      loopEvents svg rest

/-- The file names written during a run, in order. -/
def filesWritten (tr : List Event) : List String :=
  tr.filterMap fun e =>
    match e with
    | Event.writeFile p => some p
    | _ => none

/-- The lines printed to standard output during a run, in order. -/
def printedLines (tr : List Event) : List String :=
  tr.filterMap fun e =>
    match e with
    | Event.printLine l => some l
    | _ => none

/-- A filesystem mapping each (relative) file name to the declared pixel
dimensions of the raster image stored there, if any. -/
abbrev FS := String → Option (Nat × Nat)

/-- Writing a raster file: overwrites whatever was at that name before. -/
def writePng (fs : FS) (name : String) (w h : Nat) : FS :=
  fun p => if p = name then some (w, h) else fs p

/-- Effect of the render loop on the filesystem: each successful iteration
writes an image of dimensions size × size to the file named for the size; a
failing iteration aborts the loop. -/
def applyLoop (env : Env) (svg : String) : FS → List Nat → FS
  | fs, [] => fs
  | fs, size :: rest =>
      if env.renderOk svg size then
        applyLoop env svg (writePng fs (outFile size) size size) rest
      else fs

/-- Effect of one run on the filesystem: precondition failures write nothing. -/
def applyRun (env : Env) (fs : FS) : FS :=
  match importCairosvg env.bindingInstalled env.nativeAvailable with
  | ImportOutcome.ok =>
      if pathExists env (svg_file env) then
        applyLoop env (svg_file env) fs sizes
      else fs
  | _ => fs

/-- The absolute locations of the written files: each relative output name is
resolved against the current working directory of the process. -/
def writtenPaths (env : Env) : List String :=
  (filesWritten (run env).1).map (joinPath env.cwd)

/-- Replace the current working directory of an environment. -/
def setCwd (env : Env) (c : String) : Env :=
  ⟨env.bindingInstalled, env.nativeAvailable, env.scriptDir, c,
   env.entries, env.renderOk⟩

/-- Environment in which every precondition holds and every render succeeds. -/
def happyEnv : Env :=
  ⟨true, true, "tools", "work", fun _ => some (FsEntry.file true), fun _ _ => true⟩

/-- Environment in which the cairosvg package is absent (and the native
library happens to be absent as well). -/
def noBindingEnv : Env :=
  ⟨false, false, "tools", "work", fun _ => some (FsEntry.file true), fun _ _ => true⟩

/-- Environment in which the binding package is present but the native cairo
library is missing. -/
def noCairoEnv : Env :=
  ⟨true, false, "tools", "work", fun _ => some (FsEntry.file true), fun _ _ => true⟩

/-- Environment in which the rendering capability works but no entry exists at
the resolved source path. -/
def noSvgEnv : Env :=
  ⟨true, true, "tools", "work", fun _ => none, fun _ _ => true⟩

/-- Environment in which the entry at the resolved source path is a directory,
so the rasterizer fails on it. -/
def dirSvgEnv : Env :=
  ⟨true, true, "tools", "work", fun _ => some FsEntry.dir, fun _ _ => false⟩

/-- Environment in which rendering succeeds for size 16 but fails from size 48
onwards. -/
def failAt48Env : Env :=
  ⟨true, true, "tools", "work", fun _ => some (FsEntry.file true),
   fun _ s => decide (s < 48)⟩

theorem run_noModule (env : Env) (h : env.bindingInstalled = false) :
    run env = (Event.importAttempt :: [Event.printLine cairosvgInstallLine], 1) := by
  obtain ⟨b, n, d, c, ent, r⟩ := env
  subst h
  rfl

theorem run_osError (env : Env) (hb : env.bindingInstalled = true)
    (hn : env.nativeAvailable = false) :
    run env = (Event.importAttempt :: cairoErrLines.map Event.printLine, 1) := by
  obtain ⟨b, n, d, c, ent, r⟩ := env
  subst hb; subst hn
  rfl

theorem run_missingSource (env : Env) (hb : env.bindingInstalled = true)
    (hn : env.nativeAvailable = true)
    (he : pathExists env (svg_file env) = false) :
    run env = ([Event.importAttempt, Event.checkExists (svg_file env),
      Event.printLine (missingFileLine (svg_file env))], 1) := by
  obtain ⟨b, n, d, c, ent, r⟩ := env
  subst hb; subst hn
  simp only [run, importCairosvg]
  rw [he]
  simp

theorem run_entersLoop (env : Env) (hb : env.bindingInstalled = true)
    (hn : env.nativeAvailable = true)
    (he : pathExists env (svg_file env) = true) :
    run env = (Event.importAttempt :: Event.checkExists (svg_file env) ::
        (convertLoop env (svg_file env) sizes).1,
      (convertLoop env (svg_file env) sizes).2) := by
  obtain ⟨b, n, d, c, ent, r⟩ := env
  subst hb; subst hn
  simp only [run, importCairosvg]
  rw [he]
  simp

theorem convertLoop_ok (env : Env) (svg : String) (l : List Nat)
    (h : ∀ s ∈ l, env.renderOk svg s = true) :
    convertLoop env svg l = (loopEvents svg l, 0) := by
  induction l with
  | nil => rfl
  | cons a as ih =>
      have ha := h a (List.mem_cons_self _ _)
      have ih2 := ih (fun s hs => h s (List.mem_cons_of_mem _ hs))
      simp [convertLoop, loopEvents, ha, ih2]

theorem convertLoop_append (env : Env) (svg : String) (pre l : List Nat)
    (h : ∀ s ∈ pre, env.renderOk svg s = true) :
    convertLoop env svg (pre ++ l) =
      (loopEvents svg pre ++ (convertLoop env svg l).1,
       (convertLoop env svg l).2) := by
  induction pre with
  | nil => simp [loopEvents]
  | cons a as ih =>
      have ha := h a (List.mem_cons_self _ _)
      have ih2 := ih (fun s hs => h s (List.mem_cons_of_mem _ hs))
      simp [convertLoop, loopEvents, ha, ih2]

theorem filesWritten_loopEvents (svg : String) (l : List Nat) :
    filesWritten (loopEvents svg l) = l.map outFile := by
  induction l with
  | nil => rfl
  | cons a as ih =>
      simp only [loopEvents, filesWritten, List.filterMap_cons] at ih ⊢
      simp_all

theorem printedLines_loopEvents (svg : String) (l : List Nat) :
    printedLines (loopEvents svg l) = l.map (fun s => progressLine (outFile s)) := by
  induction l with
  | nil => rfl
  | cons a as ih =>
      simp only [loopEvents, printedLines, List.filterMap_cons] at ih ⊢
      simp_all

theorem renderCall_mem_loopEvents (svg u o : String) (w h : Nat) (l : List Nat)
    (hm : Event.renderCall u o w h ∈ loopEvents svg l) : w ∈ l := by
  induction l with
  | nil => simp [loopEvents] at hm
  | cons a as ih =>
      simp only [loopEvents, List.mem_cons] at hm
      rcases hm with h1 | h2 | h3 | h4
      · simp only [Event.renderCall.injEq] at h1
        simp [h1.2.2.1]
      · exact absurd h2 (by simp)
      · exact absurd h3 (by simp)
      · exact List.mem_cons_of_mem _ (ih h4)

theorem checkExists_not_mem_loopEvents (svg p : String) (l : List Nat) :
    Event.checkExists p ∉ loopEvents svg l := by
  induction l with
  | nil => simp [loopEvents]
  | cons a as ih => simp [loopEvents, ih]

theorem filesWritten_convertLoop_subset (env : Env) (svg : String) (l : List Nat) :
    ∀ f ∈ filesWritten (convertLoop env svg l).1, ∃ s, s ∈ l ∧ f = outFile s := by
  induction l with
  | nil =>
      intro f hf
      simp [convertLoop, filesWritten] at hf
  | cons a as ih =>
      intro f hf
      cases hr : env.renderOk svg a with
      | true =>
          have hf2 : f = outFile a ∨ f ∈ filesWritten (convertLoop env svg as).1 := by
            simpa [convertLoop, hr, filesWritten, List.filterMap_cons] using hf
          rcases hf2 with h1 | h2
          · exact ⟨a, List.mem_cons_self _ _, h1⟩
          · obtain ⟨s, hs, hfs⟩ := ih f h2
            exact ⟨s, List.mem_cons_of_mem _ hs, hfs⟩
      | false =>
          simp [convertLoop, hr, filesWritten] at hf

theorem run_first_event (env : Env) :
    ((run env).1)[0]? = some Event.importAttempt := by
  obtain ⟨b, n, d, c, ent, r⟩ := env
  cases b with
  | false => rfl
  | true =>
    cases n with
    | false => rfl
    | true =>
      cases hpe : pathExists ⟨true, true, d, c, ent, r⟩
          (svg_file ⟨true, true, d, c, ent, r⟩) with
      | false => rw [run_missingSource _ rfl rfl hpe]; rfl
      | true => rw [run_entersLoop _ rfl rfl hpe]; rfl

/-- C1: with the rendering capability available and the source vector present,
the run iterates over the sizes 16, 48, 128, 300 in that order, invokes the
rasterizer once per size with output width and output height both equal to the
size, writes chat-icon-(s).png for each size s, prints exactly one progress
line per completed size, exits with status 0, and produces exactly four output
files. -/
theorem happy_path_renders_all_sizes (env : Env)
    (hb : env.bindingInstalled = true) (hn : env.nativeAvailable = true)
    (he : pathExists env (svg_file env) = true)
    (hr : ∀ s ∈ sizes, env.renderOk (svg_file env) s = true) :
    (run env).2 = 0 ∧
    filesWritten (run env).1 =
      ["chat-icon-16.png", "chat-icon-48.png", "chat-icon-128.png",
       "chat-icon-300.png"] ∧
    printedLines (run env).1 =
      ["已轉換: chat-icon-16.png", "已轉換: chat-icon-48.png",
       "已轉換: chat-icon-128.png", "已轉換: chat-icon-300.png"] ∧
    (∀ s ∈ sizes,
      Event.renderCall (svg_file env) (outFile s) s s ∈ (run env).1) ∧
    (filesWritten (run env).1).length = 4 := by
  rw [run_entersLoop env hb hn he, convertLoop_ok env (svg_file env) sizes hr]
  refine ⟨rfl, ?_, ?_, ?_, ?_⟩
  · show filesWritten (loopEvents (svg_file env) sizes) = _
    rw [filesWritten_loopEvents]
    rfl
  · show printedLines (loopEvents (svg_file env) sizes) = _
    rw [printedLines_loopEvents]
    rfl
  · intro s hs
    have hs2 : s = 16 ∨ s = 48 ∨ s = 128 ∨ s = 300 := by
      simpa [sizes] using hs
    rcases hs2 with h | h | h | h <;> subst h <;> simp [sizes, loopEvents]
  · show (filesWritten (loopEvents (svg_file env) sizes)).length = 4
    rw [filesWritten_loopEvents]
    rfl

theorem happy_path_renders_all_sizes_witness :
    (run happyEnv).2 = 0 ∧
    filesWritten (run happyEnv).1 =
      ["chat-icon-16.png", "chat-icon-48.png", "chat-icon-128.png",
       "chat-icon-300.png"] ∧
    printedLines (run happyEnv).1 =
      ["已轉換: chat-icon-16.png", "已轉換: chat-icon-48.png",
       "已轉換: chat-icon-128.png", "已轉換: chat-icon-300.png"] ∧
    (∀ s ∈ sizes,
      Event.renderCall (svg_file happyEnv) (outFile s) s s ∈ (run happyEnv).1) ∧
    (filesWritten (run happyEnv).1).length = 4 :=
  happy_path_renders_all_sizes happyEnv rfl rfl rfl (fun _ _ => rfl)

/-- C2: whenever any precondition fails (binding missing, native library
missing, or source file absent) the run writes zero output files and exits
with status 1; when all preconditions hold and every render succeeds, the run
exits with status 0.  In particular no precondition failure ever yields a
proper nonempty subset of the output files. -/
theorem precondition_failure_all_or_nothing (env : Env) :
    ((env.bindingInstalled = false ∨ env.nativeAvailable = false ∨
        pathExists env (svg_file env) = false) →
      filesWritten (run env).1 = [] ∧ (run env).2 = 1) ∧
    (env.bindingInstalled = true → env.nativeAvailable = true →
      pathExists env (svg_file env) = true →
      (∀ s ∈ sizes, env.renderOk (svg_file env) s = true) →
      (run env).2 = 0) := by
  constructor
  · intro h
    rcases h with h | h | h
    · rw [run_noModule env h]; exact ⟨rfl, rfl⟩
    · cases hb : env.bindingInstalled with
      | false => rw [run_noModule env hb]; exact ⟨rfl, rfl⟩
      | true => rw [run_osError env hb h]; exact ⟨rfl, rfl⟩
    · cases hb : env.bindingInstalled with
      | false => rw [run_noModule env hb]; exact ⟨rfl, rfl⟩
      | true =>
          cases hn : env.nativeAvailable with
          | false => rw [run_osError env hb hn]; exact ⟨rfl, rfl⟩
          | true => rw [run_missingSource env hb hn h]; exact ⟨rfl, rfl⟩
  · intro hb hn he hr
    rw [run_entersLoop env hb hn he, convertLoop_ok env (svg_file env) sizes hr]

theorem precondition_failure_all_or_nothing_witness :
    (filesWritten (run noCairoEnv).1 = [] ∧ (run noCairoEnv).2 = 1) ∧
    (run happyEnv).2 = 0 :=
  ⟨(precondition_failure_all_or_nothing noCairoEnv).1 (Or.inr (Or.inl rfl)),
   (precondition_failure_all_or_nothing happyEnv).2 rfl rfl rfl (fun _ _ => rfl)⟩

/-- C3: the module-load attempt is the first event of every run, any
existence check of the source file occurs strictly later, and when the native
library fails to load the run prints the cairo diagnostic, exits with status
1, never checks for the source file, and writes nothing. -/
theorem dependency_check_precedes_source_check (env : Env) :
    ((run env).1)[0]? = some Event.importAttempt ∧
    (∀ i p, ((run env).1)[i]? = some (Event.checkExists p) → 0 < i) ∧
    (importCairosvg env.bindingInstalled env.nativeAvailable =
        ImportOutcome.osError →
      (run env).2 = 1 ∧
      printedLines (run env).1 = cairoErrLines ∧
      (∀ p, Event.checkExists p ∉ (run env).1) ∧
      filesWritten (run env).1 = []) := by
  refine ⟨run_first_event env, ?_, ?_⟩
  · intro i p hip
    cases i with
    | zero =>
        rw [run_first_event env] at hip
        exact absurd hip (by simp)
    | succ k => exact Nat.succ_pos k
  · intro hos
    obtain ⟨b, n, d, c, ent, r⟩ := env
    cases b with
    | false => simp [importCairosvg] at hos
    | true =>
      cases n with
      | true => simp [importCairosvg] at hos
      | false =>
        rw [run_osError _ rfl rfl]
        refine ⟨rfl, rfl, ?_, rfl⟩
        intro p
        simp [cairoErrLines]

theorem dependency_check_precedes_source_check_witness :
    (run noCairoEnv).2 = 1 ∧
    printedLines (run noCairoEnv).1 = cairoErrLines ∧
    Event.checkExists (svg_file noCairoEnv) ∉ (run noCairoEnv).1 ∧
    filesWritten (run noCairoEnv).1 = [] := by
  have h := (dependency_check_precedes_source_check noCairoEnv).2.2 rfl
  exact ⟨h.1, h.2.1, h.2.2.1 _, h.2.2.2⟩

/-- C4: the two dependency-failure paths print distinct diagnostics: the
missing-native-library message has three platform-specific remediation lines
(one each for Windows, Linux, and macOS), while the missing-binding failure
prints a single install instruction different from the native-library
message. -/
theorem distinct_dependency_diagnostics (env : Env) :
    (env.bindingInstalled = true → env.nativeAvailable = false →
      printedLines (run env).1 = cairoErrLines ∧ (run env).2 = 1) ∧
    (env.bindingInstalled = false →
      printedLines (run env).1 = [cairosvgInstallLine] ∧ (run env).2 = 1) ∧
    cairoErrLines ≠ [cairosvgInstallLine] ∧
    cairoErrLines.countP (fun l => "Windows".data.isPrefixOf l.data) = 1 ∧
    cairoErrLines.countP (fun l => "Linux".data.isPrefixOf l.data) = 1 ∧
    cairoErrLines.countP (fun l => "macOS".data.isPrefixOf l.data) = 1 := by
  refine ⟨?_, ?_, ?_, ?_, ?_, ?_⟩
  · intro hb hn
    rw [run_osError env hb hn]
    exact ⟨rfl, rfl⟩
  · intro hb
    rw [run_noModule env hb]
    exact ⟨rfl, rfl⟩
  · decide
  · decide
  · decide
  · decide

theorem distinct_dependency_diagnostics_witness :
    (printedLines (run noCairoEnv).1 = cairoErrLines ∧ (run noCairoEnv).2 = 1) ∧
    (printedLines (run noBindingEnv).1 = [cairosvgInstallLine] ∧
      (run noBindingEnv).2 = 1) :=
  ⟨(distinct_dependency_diagnostics noCairoEnv).1 rfl rfl,
   (distinct_dependency_diagnostics noBindingEnv).2.1 rfl⟩

theorem filesWritten_append (a b : List Event) :
    filesWritten (a ++ b) = filesWritten a ++ filesWritten b := by
  simp [filesWritten, List.filterMap_append]

/-- C5: the source path is resolved as chat-icon.svg inside the directory
containing the script itself, independently of the current working directory,
while every output file name is chat-icon-(s).png for a configured size s,
contains no directory separator, and is therefore resolved against the
current working directory of the process. -/
theorem source_and_output_path_resolution (env : Env) :
    svg_file env = joinPath env.scriptDir "chat-icon.svg" ∧
    (∀ c, svg_file (setCwd env c) = svg_file env ∧
      run (setCwd env c) = run env) ∧
    (∀ f ∈ filesWritten (run env).1,
      (∃ s, s ∈ sizes ∧ f = outFile s) ∧ ('/' ∉ f.data) ∧
      joinPath env.cwd f ∈ writtenPaths env) := by
  refine ⟨rfl, fun c => ⟨rfl, rfl⟩, ?_⟩
  intro f hf
  have hex : ∃ s, s ∈ sizes ∧ f = outFile s := by
    obtain ⟨b, n, d, c, ent, r⟩ := env
    cases b with
    | false =>
        rw [run_noModule _ rfl] at hf
        simp [filesWritten] at hf
    | true =>
      cases n with
      | false =>
          rw [run_osError _ rfl rfl] at hf
          simp [filesWritten, cairoErrLines] at hf
      | true =>
        cases hpe : pathExists ⟨true, true, d, c, ent, r⟩
            (svg_file ⟨true, true, d, c, ent, r⟩) with
        | false =>
            rw [run_missingSource _ rfl rfl hpe] at hf
            simp [filesWritten] at hf
        | true =>
            rw [run_entersLoop _ rfl rfl hpe] at hf
            exact filesWritten_convertLoop_subset _ _ sizes f hf
  refine ⟨hex, ?_, List.mem_map_of_mem _ hf⟩
  obtain ⟨s, hs, rfl⟩ := hex
  have hs4 : s = 16 ∨ s = 48 ∨ s = 128 ∨ s = 300 := by simpa [sizes] using hs
  rcases hs4 with h | h | h | h <;> subst h <;> decide

theorem source_and_output_path_resolution_witness :
    svg_file happyEnv = joinPath happyEnv.scriptDir "chat-icon.svg" ∧
    run (setCwd happyEnv "elsewhere") = run happyEnv ∧
    (∃ s, s ∈ sizes ∧ "chat-icon-16.png" = outFile s) ∧
    '/' ∉ ("chat-icon-16.png" : String).data := by
  have h := source_and_output_path_resolution happyEnv
  have h3 := h.2.2 "chat-icon-16.png" (by decide)
  exact ⟨h.1, (h.2.1 "elsewhere").2, h3.1, h3.2.1⟩

/-- C6: if rendering fails at some size in the list, the run terminates with
a non-zero status, the files written are exactly those for the earlier sizes
in iteration order (they stay in place, nothing removes them), and no
rasterizer call is made for any later size. -/
theorem render_failure_aborts_without_rollback (env : Env)
    (pre post : List Nat) (s : Nat)
    (hb : env.bindingInstalled = true) (hn : env.nativeAvailable = true)
    (he : pathExists env (svg_file env) = true)
    (hsplit : sizes = pre ++ s :: post)
    (hpre : ∀ t ∈ pre, env.renderOk (svg_file env) t = true)
    (hs : env.renderOk (svg_file env) s = false) :
    (run env).2 = 1 ∧
    filesWritten (run env).1 = pre.map outFile ∧
    (∀ t ∈ post,
      Event.renderCall (svg_file env) (outFile t) t t ∉ (run env).1) := by
  have hloop : convertLoop env (svg_file env) sizes =
      (loopEvents (svg_file env) pre ++
        [Event.renderCall (svg_file env) (outFile s) s s], 1) := by
    rw [hsplit, convertLoop_append env (svg_file env) pre (s :: post) hpre]
    simp [convertLoop, hs]
  rw [run_entersLoop env hb hn he, hloop]
  refine ⟨rfl, ?_, ?_⟩
  · show filesWritten (loopEvents (svg_file env) pre ++
        [Event.renderCall (svg_file env) (outFile s) s s]) = pre.map outFile
    rw [filesWritten_append, filesWritten_loopEvents]
    simp [filesWritten]
  · intro t ht
    have hnd : (pre ++ s :: post).Nodup := by
      rw [← hsplit]; decide
    have hdisj := (List.nodup_append.mp hnd).2.2
    have htpre : t ∉ pre := fun hmem =>
      hdisj hmem (List.mem_cons_of_mem _ ht)
    have hspost : s ∉ post :=
      (List.nodup_cons.mp (List.nodup_append.mp hnd).2.1).1
    have hts : t ≠ s := fun hts => hspost (hts ▸ ht)
    intro hmem
    rcases List.mem_cons.mp hmem with h1 | hmem2
    · exact Event.noConfusion h1
    rcases List.mem_cons.mp hmem2 with h2 | hmem3
    · exact Event.noConfusion h2
    rcases List.mem_append.mp hmem3 with h3 | h4
    · exact htpre (renderCall_mem_loopEvents _ _ _ _ _ _ h3)
    · have h5 := List.mem_singleton.mp h4
      injection h5 with e1 e2 e3 e4
      exact hts e3

theorem render_failure_aborts_without_rollback_witness :
    (run failAt48Env).2 = 1 ∧
    filesWritten (run failAt48Env).1 = ["chat-icon-16.png"] ∧
    Event.renderCall (svg_file failAt48Env) (outFile 300) 300 300 ∉
      (run failAt48Env).1 := by
  have h := render_failure_aborts_without_rollback failAt48Env [16] [128, 300]
    48 rfl rfl rfl (by decide) (by decide) (by decide)
  exact ⟨h.1, by rw [h.2.1]; rfl, h.2.2 300 (by decide)⟩

/-- C7: when no entry exists at the resolved source path, the run prints
exactly one line, namely the diagnostic text followed by that resolved path,
writes no files, and exits with status 1. -/
theorem missing_source_names_path (env : Env)
    (hb : env.bindingInstalled = true) (hn : env.nativeAvailable = true)
    (he : env.entries (svg_file env) = none) :
    printedLines (run env).1 = ["無法取得 " ++ svg_file env] ∧
    filesWritten (run env).1 = [] ∧
    (run env).2 = 1 := by
  have hpe : pathExists env (svg_file env) = false := by
    simp [pathExists, he]
  rw [run_missingSource env hb hn hpe]
  exact ⟨rfl, rfl, rfl⟩

theorem missing_source_names_path_witness :
    printedLines (run noSvgEnv).1 = ["無法取得 " ++ svg_file noSvgEnv] ∧
    filesWritten (run noSvgEnv).1 = [] ∧
    (run noSvgEnv).2 = 1 :=
  missing_source_names_path noSvgEnv rfl rfl rfl

theorem writePng_same (fs : FS) (name : String) (w h : Nat) :
    writePng fs name w h name = some (w, h) := if_pos rfl

theorem writePng_other (fs : FS) (name p : String) (w h : Nat) (hne : p ≠ name) :
    writePng fs name w h p = fs p := if_neg hne

/-- C8: rerunning with an unchanged source is idempotent at the interface:
after a successful run the file for each size s declares dimensions s × s
whatever was previously stored under that name (the write overwrites, no
prior deletion is needed), and a second run maps the filesystem to exactly
the state the first run produced. -/
theorem rerun_idempotent_and_overwrites (env : Env) (fs : FS)
    (hb : env.bindingInstalled = true) (hn : env.nativeAvailable = true)
    (he : pathExists env (svg_file env) = true)
    (hr : ∀ s ∈ sizes, env.renderOk (svg_file env) s = true) :
    (∀ s ∈ sizes, applyRun env fs (outFile s) = some (s, s)) ∧
    applyRun env (applyRun env fs) = applyRun env fs := by
  have h1 : ∀ g : FS, applyRun env g = applyLoop env (svg_file env) g sizes := by
    intro g
    unfold applyRun
    rw [hb, hn]
    simp only [importCairosvg]
    rw [he]
    simp
  have h2 : ∀ g : FS, applyLoop env (svg_file env) g sizes =
      writePng (writePng (writePng (writePng g (outFile 16) 16 16)
        (outFile 48) 48 48) (outFile 128) 128 128) (outFile 300) 300 300 := by
    intro g
    simp only [sizes, applyLoop, hr 16 (by decide), hr 48 (by decide),
      hr 128 (by decide), hr 300 (by decide), if_true]
  constructor
  · intro s hs
    rw [h1, h2]
    have hs4 : s = 16 ∨ s = 48 ∨ s = 128 ∨ s = 300 := by simpa [sizes] using hs
    rcases hs4 with h | h | h | h <;> subst h
    · rw [writePng_other _ _ _ _ _ (by decide), writePng_other _ _ _ _ _ (by decide),
        writePng_other _ _ _ _ _ (by decide), writePng_same]
    · rw [writePng_other _ _ _ _ _ (by decide), writePng_other _ _ _ _ _ (by decide),
        writePng_same]
    · rw [writePng_other _ _ _ _ _ (by decide), writePng_same]
    · rw [writePng_same]
  · rw [h1 fs, h2 fs, h1, h2]
    funext p
    simp only [writePng]
    split_ifs <;> rfl

theorem rerun_idempotent_and_overwrites_witness :
    (∀ s ∈ sizes,
      applyRun happyEnv (fun _ => some (7, 9)) (outFile s) = some (s, s)) ∧
    applyRun happyEnv (applyRun happyEnv (fun _ => some (7, 9))) =
      applyRun happyEnv (fun _ => some (7, 9)) :=
  rerun_idempotent_and_overwrites happyEnv (fun _ => some (7, 9))
    rfl rfl rfl (fun _ _ => rfl)

/-- C9: absence of the binding package masks absence of the native library:
with the package missing the module load yields ModuleNotFoundError whatever
the state of the native library, the OSError outcome occurs exactly when the
package is present and the native library is missing, and a run without the
package always prints the binding diagnostic and exits with status 1. -/
theorem binding_absence_masks_native_absence :
    (∀ n, importCairosvg false n = ImportOutcome.noModule) ∧
    (∀ b n, importCairosvg b n = ImportOutcome.osError ↔
      b = true ∧ n = false) ∧
    (∀ env : Env, env.bindingInstalled = false →
      printedLines (run env).1 = [cairosvgInstallLine] ∧ (run env).2 = 1) := by
  refine ⟨by decide, by decide, ?_⟩
  intro env hb
  rw [run_noModule env hb]
  exact ⟨rfl, rfl⟩

theorem binding_absence_masks_native_absence_witness :
    printedLines (run noBindingEnv).1 = [cairosvgInstallLine] ∧
    (run noBindingEnv).2 = 1 :=
  binding_absence_masks_native_absence.2.2 noBindingEnv rfl

/-- C10: the source precondition tests existence only: any kind of entry at
the resolved path (a directory as much as an unreadable or a readable file)
passes the check, and once it passes the run reaches the render loop and
issues its first rasterizer call whether or not rendering can succeed; with a
directory at the source path the run reaches the loop and fails inside it
with status 1 and no files written, so the in-loop failure branch is
reachable under the existence precondition alone. -/
theorem existence_only_source_check (env : Env) :
    (∀ e : FsEntry, env.entries (svg_file env) = some e →
      pathExists env (svg_file env) = true) ∧
    (env.bindingInstalled = true → env.nativeAvailable = true →
      pathExists env (svg_file env) = true →
      Event.renderCall (svg_file env) (outFile 16) 16 16 ∈ (run env).1) ∧
    ((run dirSvgEnv).2 = 1 ∧
      dirSvgEnv.entries (svg_file dirSvgEnv) = some FsEntry.dir ∧
      Event.renderCall (svg_file dirSvgEnv) (outFile 16) 16 16 ∈
        (run dirSvgEnv).1 ∧
      filesWritten (run dirSvgEnv).1 = []) := by
  refine ⟨?_, ?_, rfl, rfl, ?_, rfl⟩
  · intro e he
    simp [pathExists, he]
  · intro hb hn he
    rw [run_entersLoop env hb hn he]
    cases hrd : env.renderOk (svg_file env) 16 <;>
      simp [sizes, convertLoop, hrd]
  · rw [run_entersLoop dirSvgEnv rfl rfl rfl]
    exact List.Mem.tail _ (List.Mem.tail _ (List.Mem.head _))

theorem existence_only_source_check_witness :
    pathExists dirSvgEnv (svg_file dirSvgEnv) = true ∧
    Event.renderCall (svg_file dirSvgEnv) (outFile 16) 16 16 ∈
      (run dirSvgEnv).1 := by
  have h := existence_only_source_check dirSvgEnv
  exact ⟨h.1 FsEntry.dir rfl, h.2.1 rfl rfl rfl⟩
